import Mathlib

/-!
Verification of the JSON response-resolution pipeline of
`src/templates/admin/src/lib/plume-http/client/JsonFetchClient.ts`.

The embedding models:
- parsed JSON values (`JsonValue`);
- the parts of the Fetch `Response` object the pipeline reads (`Response`);
- the result union `HttpResponse` with its two optional fields;
- the three handlers `jsonContentTypeValidator`, `defaultJsonErrorMapper`
  and `toJsonResponse`, translated from the source;
- spec-modelled stand-ins for `genericError`, `toErrorResponse`,
  `validateBasicStatusCodes` and the `fetchClient` handler loop, whose
  source files are not part of the repository fragment.
-/

/-- A parsed JSON value, the possible results of `Response.json()`. -/
inductive JsonValue where
  | null : JsonValue
  | bool : Bool → JsonValue
  | num : Int → JsonValue
  | str : String → JsonValue
  | arr : List JsonValue → JsonValue
  | obj : List (String × JsonValue) → JsonValue


/-- Modelled from the spec: `HttpError` (from `HttpResponse.ts`, not part of
the shown fragment) is "either a generic/unspecified error marker or a domain
error object carrying an `errorCode` field". `fromJson` carries a domain error
body through unmodified. -/
inductive HttpError where
  | generic : HttpError
  | fromJson : JsonValue → HttpError


/-- Modelled from the spec: `genericError` (from `HttpResponse.ts`, not part
of the shown fragment) is the generic/unspecified error marker "used
whenever the response cannot be trusted or parsed as expected". -/
def genericError : HttpError := HttpError.generic

/-- The result union `HttpResponse<T>`: a JS object with two optional
fields `response` and `error`. `none` models an absent field. -/
structure HttpResponse where
  response : Option JsonValue
  error : Option HttpError


/-- Modelled from the spec: `toErrorResponse` (from `HttpResponse.ts`, not
part of the shown fragment) wraps an error value as an error Result
`\x7berror: e\x7d`; `toErrorResponsePromise` is the same value resolved in a
promise. -/
def toErrorResponse (e : HttpError) : HttpResponse :=
  { response := none, error := some e }

/-- The parts of the Fetch `Response` object that the pipeline reads:
`status`, the success flag `ok`, the header map, and the body, exposed as
the outcome of `response.json()` — either a parsed `JsonValue` or a parse
failure carrying the thrown error's message. -/
structure Response where
  status : Nat
  ok : Bool
  headers : List (String × String)
  jsonBody : Except String JsonValue


/-- `response.headers.get(name)`: the header value, or `none` (JS `null`)
when the header is absent. -/
def Response.getHeader (r : Response) (name : String) : Option String :=
  (r.headers.find? (fun p => p.1 == name)).map Prod.snd

/-- `pat` is a prefix of `l` (character-wise equality). -/
def listPrefixEq : List Char → List Char → Bool
  | [], _ => true
  | _ :: _, [] => false
  | p :: ps, c :: cs => p == c && listPrefixEq ps cs

/-- `pat` occurs as a contiguous sublist of `l`. -/
def listInfixOf (pat : List Char) : List Char → Bool
  | [] => listPrefixEq pat []
  | c :: cs => listPrefixEq pat (c :: cs) || listInfixOf pat cs

/-- JS `s.indexOf(sub) !== -1`: case-sensitive substring containment. -/
def containsSubstring (s sub : String) : Bool :=
  listInfixOf sub.data s.data

/-- JS property access `json.name` on a parsed JSON value: `none` models
`undefined` (field absent, or the value is not an object). -/
def getProp (j : JsonValue) (name : String) : Option JsonValue :=
  match j with
  | JsonValue.obj fields => (fields.find? (fun p => p.1 == name)).map Prod.snd
  | _ => none

/-- The default value of the `jsonContentType` parameter of
`jsonContentTypeValidator`. -/
def defaultJsonContentType : String := "application/json"

/-- `jsonContentTypeValidator` from `JsonFetchClient.ts`: checks the
`content-type` response header; when the header is absent (`null`) or does
not contain `jsonContentType` it returns an error Result, else `undefined`
(`none`). -/
def jsonContentTypeValidator (response : Response) (jsonContentType : String) :
    Option HttpResponse :=
  let contentType := response.getHeader "content-type"
  match contentType with
  | none => some (toErrorResponse genericError)
  | some ct =>
    if containsSubstring ct jsonContentType then
      none
    else
      some (toErrorResponse genericError)

/-- The `JsonErrorMapper` function type: maps a non-successful response and
its parsed JSON body to a Result. -/
def JsonErrorMapper : Type := Response → JsonValue → HttpResponse

/-- `defaultJsonErrorMapper` from `JsonFetchClient.ts`: when
`typeof json.errorCode === 'undefined'` it returns `\x7berror: genericError\x7d`,
else `\x7berror: json\x7d`. -/
def defaultJsonErrorMapper : JsonErrorMapper := fun _response json =>
  match getProp json "errorCode" with
  | none => { response := none, error := some genericError }
  | some _ => { response := none, error := some (HttpError.fromJson json) }

/-- JS `promise.then(f)`: maps the resolved value, propagating rejection. -/
def promiseThen (p : Except String JsonValue) (f : JsonValue → HttpResponse) :
    Except String HttpResponse :=
  match p with
  | Except.ok v => Except.ok (f v)
  | Except.error e => Except.error e

/-- JS `promise.catch(g)`: turns a rejection into a resolved value. -/
def promiseCatch (p : Except String HttpResponse) (g : String → HttpResponse) :
    Except String HttpResponse :=
  match p with
  | Except.ok v => Except.ok v
  | Except.error e => Except.ok (g e)

/-- `toJsonResponse` from `JsonFetchClient.ts` as the promise chain
`response.json().then(...).catch(...)`: the `then` callback returns
`\x7bresponse: json\x7d` when `response.ok`, else applies `jsonErrorMapper`;
the `catch` callback turns a JSON parse failure into
`\x7berror: genericError\x7d`. -/
def toJsonResponsePromise (response : Response) (jsonErrorMapper : JsonErrorMapper) :
    Except String HttpResponse :=
  promiseCatch
    (promiseThen response.jsonBody (fun json =>
      if response.ok then
        { response := some json, error := none }
      else
        jsonErrorMapper response json))
    (fun _error => { response := none, error := some genericError })

/-- The awaited value of `toJsonResponse`; the parse-failure branch of the
outer match is unreachable because the `catch` absorbs every rejection. -/
def toJsonResponse (response : Response) (jsonErrorMapper : JsonErrorMapper) :
    HttpResponse :=
  match toJsonResponsePromise response jsonErrorMapper with
  | Except.ok v => v
  | Except.error _ => { response := none, error := some genericError }

/-- A `FetchResponseHandler` as invoked by the handler loop: it receives the
response and returns `undefined` (`none`, no verdict) or a final Result. -/
def FetchResponseHandler : Type := Response → Option HttpResponse

/-- Modelled from the spec: `validateBasicStatusCodes` (from
`FetchStatusValidators.ts`, not part of the shown fragment) defers non-2xx
handling to later handlers and returns a definitive error Result only for a
structurally invalid status, e.g. a network-level failure reported as
status 0. -/
def validateBasicStatusCodes : FetchResponseHandler := fun response =>
  if response.status = 0 then
    some (toErrorResponse genericError)
  else
    none

/-- Modelled from the spec: the handler loop of `fetchClient` (from
`FetchClient.ts`, not part of the shown fragment) iterates handlers in
declaration order, stops at the first non-undefined value, which becomes the
final Result, and surfaces a generic error when every handler returns
undefined. -/
def resolveHandlers (handlers : List FetchResponseHandler) (response : Response) :
    HttpResponse :=
  match handlers with
  | [] => toErrorResponse genericError
  | h :: rest =>
    match h response with
    | some result => result
    | none => resolveHandlers rest response

/-- `jsonContentTypeValidator` as it appears in the handler list, with its
default `jsonContentType` argument. -/
def jsonContentTypeValidatorHandler : FetchResponseHandler := fun response =>
  jsonContentTypeValidator response defaultJsonContentType

/-- `toJsonResponse` as it appears in the handler list, with its default
`jsonErrorMapper` argument; it always produces a verdict. -/
def toJsonResponseHandler : FetchResponseHandler := fun response =>
  some (toJsonResponse response defaultJsonErrorMapper)

/-- `defaultJsonFetchClient` from `JsonFetchClient.ts`: runs the three
handlers `validateBasicStatusCodes`, `jsonContentTypeValidator`,
`toJsonResponse` in this order over the response. -/
def defaultJsonFetchClient (response : Response) : HttpResponse :=
  resolveHandlers
    [validateBasicStatusCodes, jsonContentTypeValidatorHandler, toJsonResponseHandler]
    response

/-- A Result has exactly one of `response` / `error` populated. -/
def resultWellFormed (h : HttpResponse) : Bool :=
  h.response.isSome != h.error.isSome

/-- `jsonContentTypeValidator` with its `logger.error('Response type is not
JSON', response)` call made explicit: the second component collects the log
messages emitted during the call. -/
def jsonContentTypeValidatorLogged (response : Response) (jsonContentType : String) :
    Option HttpResponse × List String :=
  let contentType := response.getHeader "content-type"
  match contentType with
  | none => (some (toErrorResponse genericError), ["Response type is not JSON"])
  | some ct =>
    if containsSubstring ct jsonContentType then
      (none, [])
    else
      (some (toErrorResponse genericError), ["Response type is not JSON"])

/-- `defaultJsonErrorMapper` with its `logger.error('Unrecognized JSON
error', response)` call made explicit. -/
def defaultJsonErrorMapperLogged (_response : Response) (json : JsonValue) :
    HttpResponse × List String :=
  match getProp json "errorCode" with
  | none => ({ response := none, error := some genericError }, ["Unrecognized JSON error"])
  | some _ => ({ response := none, error := some (HttpError.fromJson json) }, [])

/-- `toJsonResponse` (with the default error mapper) with the
`logger.error('Cannot parse JSON', error)` call of the `catch` branch and
the mapper's log made explicit. -/
def toJsonResponseLogged (response : Response) : HttpResponse × List String :=
  match response.jsonBody with
  | Except.ok json =>
    if response.ok then
      ({ response := some json, error := none }, [])
    else
      defaultJsonErrorMapperLogged response json
  | Except.error e =>
    ({ response := none, error := some genericError }, ["Cannot parse JSON: " ++ e])

/-- C1: for every response with `ok = true` whose body parses as well-formed
JSON, `toJsonResponse` (with any error mapper) yields the Result
`\x7bresponse: <the parsed body>\x7d`. -/
theorem toJsonResponse_ok_gives_response (response : Response)
    (mapper : JsonErrorMapper) (json : JsonValue)
    (hok : response.ok = true) (hbody : response.jsonBody = Except.ok json) :
    toJsonResponse response mapper = { response := some json, error := none } := by
  simp [toJsonResponse, toJsonResponsePromise, promiseThen, promiseCatch, hbody, hok]

/-- C1 witness: status 200, `content-type: application/json`, body
`\x7b"id":1\x7d` resolves to `\x7bresponse: \x7bid:1\x7d\x7d`. -/
theorem toJsonResponse_ok_gives_response_witness :
    toJsonResponse
      { status := 200, ok := true, headers := [("content-type", "application/json")],
        jsonBody := Except.ok (JsonValue.obj [("id", JsonValue.num 1)]) }
      defaultJsonErrorMapper
    = { response := some (JsonValue.obj [("id", JsonValue.num 1)]), error := none } :=
  toJsonResponse_ok_gives_response _ _ (JsonValue.obj [("id", JsonValue.num 1)]) rfl rfl

/-- C2: for every response with `ok = false` whose body parses as JSON,
under the default error mapper: when the parsed object has a defined
`errorCode` field the Result is `\x7berror: <the parsed body>\x7d`, and when
`errorCode` is absent/undefined the Result is `\x7berror: genericError\x7d`. -/
theorem toJsonResponse_error_mapping (response : Response) (json : JsonValue)
    (hok : response.ok = false) (hbody : response.jsonBody = Except.ok json) :
    (∀ v, getProp json "errorCode" = some v →
      toJsonResponse response defaultJsonErrorMapper
        = { response := none, error := some (HttpError.fromJson json) })
    ∧ (getProp json "errorCode" = none →
      toJsonResponse response defaultJsonErrorMapper
        = { response := none, error := some genericError }) := by
  constructor
  · intro v hv
    simp [toJsonResponse, toJsonResponsePromise, promiseThen, promiseCatch, hbody, hok,
      defaultJsonErrorMapper, hv]
  · intro hnone
    simp [toJsonResponse, toJsonResponsePromise, promiseThen, promiseCatch, hbody, hok,
      defaultJsonErrorMapper, hnone]

/-- C2 witness: status 404 with body `\x7b"errorCode":"NOT_FOUND"\x7d` resolves
to `\x7berror: <the parsed body>\x7d`. -/
theorem toJsonResponse_error_mapping_witness :
    toJsonResponse
      { status := 404, ok := false, headers := [("content-type", "application/json")],
        jsonBody := Except.ok (JsonValue.obj [("errorCode", JsonValue.str "NOT_FOUND")]) }
      defaultJsonErrorMapper
    = { response := none,
        error := some (HttpError.fromJson
          (JsonValue.obj [("errorCode", JsonValue.str "NOT_FOUND")])) } :=
  (toJsonResponse_error_mapping _
    (JsonValue.obj [("errorCode", JsonValue.str "NOT_FOUND")]) rfl rfl).1
    (JsonValue.str "NOT_FOUND") rfl

/-- C3: for every response whose body read/parse fails, `toJsonResponse`
(with any error mapper, and whatever the `ok` flag) yields
`\x7berror: genericError\x7d`. -/
theorem toJsonResponse_parse_failure (response : Response)
    (mapper : JsonErrorMapper) (e : String)
    (hbody : response.jsonBody = Except.error e) :
    toJsonResponse response mapper = { response := none, error := some genericError } := by
  simp [toJsonResponse, toJsonResponsePromise, promiseThen, promiseCatch, hbody]

/-- C3 witness: a status-200 response with an unparsable body resolves to
`\x7berror: genericError\x7d`. -/
theorem toJsonResponse_parse_failure_witness :
    toJsonResponse
      { status := 200, ok := true, headers := [("content-type", "application/json")],
        jsonBody := Except.error "Unexpected token < in JSON" }
      defaultJsonErrorMapper
    = { response := none, error := some genericError } :=
  toJsonResponse_parse_failure _ _ "Unexpected token < in JSON" rfl

/-- C4: for every response whose `content-type` header is absent or does not
contain the expected substring, `jsonContentTypeValidator` returns the
definitive Result `\x7berror: genericError\x7d`; when the header does contain
the substring it returns `undefined` (no verdict). -/
theorem jsonContentTypeValidator_cases (response : Response) (ct : String) :
    ((∀ h, response.getHeader "content-type" = some h → containsSubstring h ct = false) →
      jsonContentTypeValidator response ct = some (toErrorResponse genericError))
    ∧ (∀ h, response.getHeader "content-type" = some h → containsSubstring h ct = true →
      jsonContentTypeValidator response ct = none) := by
  constructor
  · intro hfail
    unfold jsonContentTypeValidator
    cases hhd : response.getHeader "content-type" with
    | none => simp
    | some h => simp [hfail h hhd]
  · intro h hhd hcontains
    unfold jsonContentTypeValidator
    simp [hhd, hcontains]

/-- C4 witness: a `text/html` header yields `\x7berror: genericError\x7d`, a
matching `application/json` header yields no verdict. -/
theorem jsonContentTypeValidator_cases_witness :
    jsonContentTypeValidator
      { status := 200, ok := true, headers := [("content-type", "text/html")],
        jsonBody := Except.ok JsonValue.null }
      defaultJsonContentType
    = some (toErrorResponse genericError)
    ∧ jsonContentTypeValidator
      { status := 200, ok := true, headers := [("content-type", "application/json")],
        jsonBody := Except.ok JsonValue.null }
      defaultJsonContentType
    = none :=
  ⟨(jsonContentTypeValidator_cases _ defaultJsonContentType).1
      (by intro h hh; cases hh; rfl),
   (jsonContentTypeValidator_cases _ defaultJsonContentType).2
      "application/json" rfl rfl⟩

/-- C6: every Result produced by `jsonContentTypeValidator`,
`defaultJsonErrorMapper` or `toJsonResponse` (with the default mapper) has
exactly one of `response` / `error` populated. -/
theorem pipeline_results_wellFormed (r : Response) (ct : String) (j : JsonValue) :
    (∀ res, jsonContentTypeValidator r ct = some res → resultWellFormed res = true)
    ∧ resultWellFormed (defaultJsonErrorMapper r j) = true
    ∧ resultWellFormed (toJsonResponse r defaultJsonErrorMapper) = true := by
  refine ⟨?_, ?_, ?_⟩
  · intro res hres
    unfold jsonContentTypeValidator at hres
    cases hhd : r.getHeader "content-type" with
    | none =>
      simp [hhd] at hres
      simp [← hres, toErrorResponse, resultWellFormed]
    | some h =>
      simp [hhd] at hres
      by_cases hc : containsSubstring h ct = true
      · simp [hc] at hres
      · simp [Bool.not_eq_true] at hc
        simp [hc] at hres
        simp [← hres, toErrorResponse, resultWellFormed]
  · unfold defaultJsonErrorMapper
    cases getProp j "errorCode" <;> simp [resultWellFormed]
  · unfold toJsonResponse toJsonResponsePromise promiseThen promiseCatch
    cases r.jsonBody with
    | ok json =>
      by_cases hok : r.ok = true
      · simp [hok, resultWellFormed]
      · simp [Bool.not_eq_true] at hok
        unfold defaultJsonErrorMapper
        cases hcode : getProp json "errorCode" <;> simp [hcode, hok, resultWellFormed]
    | error e => simp [resultWellFormed]

/-- C6 witness: at a concrete response both the validator's verdict, the
mapper's Result and the resolver's Result are well-formed. -/
theorem pipeline_results_wellFormed_witness :
    resultWellFormed (toErrorResponse genericError) = true
    ∧ resultWellFormed
        (defaultJsonErrorMapper
          { status := 500, ok := false, headers := [], jsonBody := Except.ok JsonValue.null }
          (JsonValue.obj [("message", JsonValue.str "oops")])) = true
    ∧ resultWellFormed
        (toJsonResponse
          { status := 500, ok := false, headers := [], jsonBody := Except.ok JsonValue.null }
          defaultJsonErrorMapper) = true :=
  ⟨(pipeline_results_wellFormed
      { status := 500, ok := false, headers := [], jsonBody := Except.ok JsonValue.null }
      defaultJsonContentType (JsonValue.obj [("message", JsonValue.str "oops")])).1
      (toErrorResponse genericError) rfl,
   (pipeline_results_wellFormed
      { status := 500, ok := false, headers := [], jsonBody := Except.ok JsonValue.null }
      defaultJsonContentType (JsonValue.obj [("message", JsonValue.str "oops")])).2.1,
   (pipeline_results_wellFormed
      { status := 500, ok := false, headers := [], jsonBody := Except.ok JsonValue.null }
      defaultJsonContentType (JsonValue.obj [("message", JsonValue.str "oops")])).2.2⟩

/-- C7: content-type matching is case-sensitive substring containment: with
expected substring "json" the header "application/vnd.app.v1+json" passes
(no verdict) while "text/plain" fails; an upper-cased header fails against a
lower-case expected substring. -/
theorem jsonContentTypeValidator_substring_cases :
    jsonContentTypeValidator
      { status := 200, ok := true,
        headers := [("content-type", "application/vnd.app.v1+json")],
        jsonBody := Except.ok JsonValue.null } "json"
    = none
    ∧ jsonContentTypeValidator
      { status := 200, ok := true, headers := [("content-type", "text/plain")],
        jsonBody := Except.ok JsonValue.null } "json"
    = some (toErrorResponse genericError)
    ∧ jsonContentTypeValidator
      { status := 200, ok := true, headers := [("content-type", "APPLICATION/JSON")],
        jsonBody := Except.ok JsonValue.null } defaultJsonContentType
    = some (toErrorResponse genericError) := by
  refine ⟨rfl, rfl, rfl⟩

/-- C10: whenever the parsed object's `errorCode` field is defined — even
when bound to a falsy value such as `null`, `0`, `false` or `""` — the
default error mapper returns `\x7berror: <the parsed object>\x7d`, never
`\x7berror: genericError\x7d`. -/
theorem defaultJsonErrorMapper_defined_falsy (r : Response) (json v : JsonValue)
    (hdef : getProp json "errorCode" = some v) :
    defaultJsonErrorMapper r json
      = { response := none, error := some (HttpError.fromJson json) }
    ∧ defaultJsonErrorMapper r json
      ≠ { response := none, error := some genericError } := by
  unfold defaultJsonErrorMapper
  rw [hdef]
  refine ⟨rfl, ?_⟩
  intro hcontra
  have : HttpError.fromJson json = genericError := by
    have := congrArg HttpResponse.error hcontra
    simpa using this
  simp [genericError] at this

/-- C10 witness: body `\x7b"errorCode": null\x7d` (a defined but falsy
`errorCode`) maps to `\x7berror: <the parsed body>\x7d`. -/
theorem defaultJsonErrorMapper_defined_falsy_witness :
    defaultJsonErrorMapper
      { status := 400, ok := false, headers := [], jsonBody := Except.ok JsonValue.null }
      (JsonValue.obj [("errorCode", JsonValue.null)])
    = { response := none,
        error := some (HttpError.fromJson (JsonValue.obj [("errorCode", JsonValue.null)])) } :=
  (defaultJsonErrorMapper_defined_falsy _
    (JsonValue.obj [("errorCode", JsonValue.null)]) JsonValue.null rfl).1

/-- Helper: the only verdict `jsonContentTypeValidator` ever issues is the
generic-error Result. -/
theorem jsonContentTypeValidator_none_or_generic (r : Response) (ct : String) :
    jsonContentTypeValidator r ct = none
    ∨ jsonContentTypeValidator r ct = some (toErrorResponse genericError) := by
  unfold jsonContentTypeValidator
  cases r.getHeader "content-type" with
  | none => exact Or.inr rfl
  | some h =>
    by_cases hc : containsSubstring h ct = true
    · exact Or.inl (by simp [hc])
    · exact Or.inr (by simp [hc])

/-- C8: expected failure modes are returned as typed Result values, never
raised: the promise built by `toJsonResponse` always resolves (the `catch`
absorbs every rejection), a parse failure resolves to
`\x7berror: genericError\x7d`, and `jsonContentTypeValidator` returns either no
verdict or the generic-error Result. -/
theorem pipeline_never_throws (response : Response) (mapper : JsonErrorMapper)
    (ct : String) :
    (∃ v, toJsonResponsePromise response mapper = Except.ok v)
    ∧ (∀ e, response.jsonBody = Except.error e →
        toJsonResponsePromise response mapper
          = Except.ok { response := none, error := some genericError })
    ∧ (jsonContentTypeValidator response ct = none
        ∨ jsonContentTypeValidator response ct = some (toErrorResponse genericError)) := by
  refine ⟨?_, ?_, ?_⟩
  · unfold toJsonResponsePromise promiseThen promiseCatch
    cases response.jsonBody <;> exact ⟨_, rfl⟩
  · intro e hbody
    unfold toJsonResponsePromise promiseThen promiseCatch
    rw [hbody]
  · unfold jsonContentTypeValidator
    cases response.getHeader "content-type" with
    | none => exact Or.inr rfl
    | some h =>
      by_cases hc : containsSubstring h ct = true
      · exact Or.inl (by simp [hc])
      · exact Or.inr (by simp [hc])

/-- C8 witness: at a response with an unparsable body the promise resolves
to the generic-error Result. -/
theorem pipeline_never_throws_witness :
    toJsonResponsePromise
      { status := 500, ok := false, headers := [("content-type", "application/json")],
        jsonBody := Except.error "SyntaxError" }
      defaultJsonErrorMapper
    = Except.ok { response := none, error := some genericError } :=
  (pipeline_never_throws
    { status := 500, ok := false, headers := [("content-type", "application/json")],
      jsonBody := Except.error "SyntaxError" }
    defaultJsonErrorMapper defaultJsonContentType).2.1 "SyntaxError" rfl

/-- C9: diagnostic logging does not affect results: each handler with its
`logger.error` calls made explicit returns exactly the Result of the plain
handler, whatever the input. -/
theorem logging_does_not_affect_results (r : Response) (ct : String) (j : JsonValue) :
    (jsonContentTypeValidatorLogged r ct).1 = jsonContentTypeValidator r ct
    ∧ (defaultJsonErrorMapperLogged r j).1 = defaultJsonErrorMapper r j
    ∧ (toJsonResponseLogged r).1 = toJsonResponse r defaultJsonErrorMapper := by
  refine ⟨?_, ?_, ?_⟩
  · unfold jsonContentTypeValidatorLogged jsonContentTypeValidator
    cases r.getHeader "content-type" with
    | none => rfl
    | some h =>
      by_cases hc : containsSubstring h ct = true
      · simp [hc]
      · simp [hc]
  · unfold defaultJsonErrorMapperLogged defaultJsonErrorMapper
    cases getProp j "errorCode" <;> rfl
  · unfold toJsonResponseLogged toJsonResponse toJsonResponsePromise promiseThen
      promiseCatch defaultJsonErrorMapperLogged defaultJsonErrorMapper
    cases r.jsonBody with
    | ok json =>
      by_cases hok : r.ok = true
      · simp [hok]
      · simp [Bool.not_eq_true] at hok
        cases hcode : getProp json "errorCode" <;> simp [hcode, hok]
    | error e => rfl

/-- C5: handlers run in declaration order and resolution short-circuits: if
every handler before `h` yields no verdict and `h` yields `some v`, the
pipeline's Result is `v` whatever handlers follow; in particular, in
`defaultJsonFetchClient`, when the content-type check issues a verdict the
final Result is the generic error and the JSON body is never read (the
Result is unchanged under any replacement of the body). -/
theorem handlers_short_circuit_in_order :
    (∀ (pre post : List FetchResponseHandler) (h : FetchResponseHandler)
        (r : Response) (v : HttpResponse),
      (∀ g ∈ pre, g r = none) → h r = some v →
      resolveHandlers (pre ++ h :: post) r = v)
    ∧ (∀ (st : Nat) (okFlag : Bool) (hd : List (String × String))
        (b₁ b₂ : Except String JsonValue),
      (jsonContentTypeValidatorHandler
          { status := st, ok := okFlag, headers := hd, jsonBody := b₁ }).isSome = true →
      defaultJsonFetchClient { status := st, ok := okFlag, headers := hd, jsonBody := b₁ }
        = toErrorResponse genericError
      ∧ defaultJsonFetchClient { status := st, ok := okFlag, headers := hd, jsonBody := b₁ }
        = defaultJsonFetchClient { status := st, ok := okFlag, headers := hd, jsonBody := b₂ }) := by
  constructor
  · intro pre post h r v
    induction pre with
    | nil =>
      intro _ hh
      simp [resolveHandlers, hh]
    | cons g gs ih =>
      intro hpre hh
      have hg : g r = none := hpre g (List.mem_cons_self g gs)
      have hrest : ∀ g0 ∈ gs, g0 r = none :=
        fun g0 hg0 => hpre g0 (List.mem_cons_of_mem g hg0)
      simp only [List.cons_append, resolveHandlers, hg]
      exact ih hrest hh
  · intro st okFlag hd b₁ b₂ hsome
    obtain ⟨res, hres⟩ := Option.isSome_iff_exists.mp hsome
    have hgen : res = toErrorResponse genericError := by
      simp only [jsonContentTypeValidatorHandler] at hres
      rcases jsonContentTypeValidator_none_or_generic
        { status := st, ok := okFlag, headers := hd, jsonBody := b₁ }
        defaultJsonContentType with hnone | hverdict
      · rw [hnone] at hres
        cases hres
      · rw [hverdict] at hres
        exact (Option.some.inj hres).symm
    have hsame : jsonContentTypeValidatorHandler
        { status := st, ok := okFlag, headers := hd, jsonBody := b₂ }
        = jsonContentTypeValidatorHandler
        { status := st, ok := okFlag, headers := hd, jsonBody := b₁ } := rfl
    by_cases hst : st = 0
    · subst hst
      exact ⟨rfl, rfl⟩
    · constructor
      · simp [defaultJsonFetchClient, resolveHandlers, validateBasicStatusCodes, hst,
          hres, hgen]
      · simp [defaultJsonFetchClient, resolveHandlers, validateBasicStatusCodes, hst,
          hres, hsame]

/-- C5 witness: with a `text/html` header the pipeline stops at the
content-type validator with the generic error, both through the explicit
handler list and through `defaultJsonFetchClient`. -/
theorem handlers_short_circuit_in_order_witness :
    resolveHandlers
      ([validateBasicStatusCodes]
        ++ jsonContentTypeValidatorHandler :: [toJsonResponseHandler])
      { status := 200, ok := true, headers := [("content-type", "text/html")],
        jsonBody := Except.ok JsonValue.null }
    = toErrorResponse genericError
    ∧ defaultJsonFetchClient
      { status := 200, ok := true, headers := [("content-type", "text/html")],
        jsonBody := Except.ok JsonValue.null }
    = toErrorResponse genericError :=
  ⟨handlers_short_circuit_in_order.1
      [validateBasicStatusCodes] [toJsonResponseHandler] jsonContentTypeValidatorHandler
      { status := 200, ok := true, headers := [("content-type", "text/html")],
        jsonBody := Except.ok JsonValue.null }
      (toErrorResponse genericError)
      (by
        intro g hg
        rw [List.mem_singleton] at hg
        subst hg
        rfl)
      rfl,
   (handlers_short_circuit_in_order.2
      200 true [("content-type", "text/html")]
      (Except.ok JsonValue.null) (Except.ok JsonValue.null) rfl).1⟩
